import Mathlib

/-!
Shallow embedding of `fastapi_middleware_logger/fastapi_middleware_logger.py`
(repository `kkatayama/fastapi-custom-logger`).

Python bytes are modelled as `List Nat` (byte values), Python `str` as Lean
`String`, Python `dict`s of strings as association lists in insertion order,
and the heterogeneous values that flow into the logger callbacks as the
inductive type `Value`.  Emitting a line through the `logging` module is
modelled as producing a `LogRecord` (severity plus formatted message); a
logger callback is a pure function from its keyword arguments to the list of
records it emits, in order.
-/

set_option linter.unusedVariables false

/-- Python `bytes` values: a list of byte values. -/
abbrev Bytes := List Nat

/-- The heterogeneous values that appear in the keyword arguments passed to a
logger callback: strings, raw bytes, string-to-string dicts, ints, and
`None` (the possible `media_type`). -/
inductive Value where
  | vStr (s : String)
  | vBytes (bs : Bytes)
  | vDict (d : List (String × String))
  | vInt (n : Int)
  | vNone
deriving DecidableEq

/-- Is `b` a UTF-8 continuation byte (0x80..0xBF)? -/
def contByte (b : Nat) : Bool := 128 ≤ b && b < 192

/-- Strict UTF-8 decoding of a byte list into the list of code points,
modelling CPython's `bytes.decode("utf-8")` with strict error handling:
overlong encodings (lead bytes 0xC0/0xC1, out-of-range second bytes after
0xE0/0xF0), surrogate code points (via the 0xED branch), code points above
0x10FFFF (lead bytes 0xF5..0xFF, out-of-range second bytes after 0xF4) and
truncated sequences are all rejected.  `none` models `UnicodeDecodeError`. -/
def utf8DecodeCps : List Nat → Option (List Nat)
  | [] => some []
  | b1 :: rest =>
    if b1 < 128 then
      (utf8DecodeCps rest).map (fun cs => b1 :: cs)
    else if b1 < 194 then none
    else if b1 < 224 then
      match rest with
      | b2 :: rest2 =>
        if contByte b2 then
          (utf8DecodeCps rest2).map (fun cs => ((b1 - 192) * 64 + (b2 - 128)) :: cs)
        else none
      | [] => none
    else if b1 < 240 then
      match rest with
      | b2 :: b3 :: rest3 =>
        if (if b1 = 224 then decide (160 ≤ b2) && decide (b2 < 192)
            else if b1 = 237 then decide (128 ≤ b2) && decide (b2 < 160)
            else contByte b2) && contByte b3 then
          (utf8DecodeCps rest3).map
            (fun cs => ((b1 - 224) * 4096 + (b2 - 128) * 64 + (b3 - 128)) :: cs)
        else none
      | _ => none
    else if b1 < 245 then
      match rest with
      | b2 :: b3 :: b4 :: rest4 =>
        if (if b1 = 240 then decide (144 ≤ b2) && decide (b2 < 192)
            else if b1 = 244 then decide (128 ≤ b2) && decide (b2 < 144)
            else contByte b2) && contByte b3 && contByte b4 then
          (utf8DecodeCps rest4).map
            (fun cs =>
              ((b1 - 240) * 262144 + (b2 - 128) * 4096 + (b3 - 128) * 64 + (b4 - 128)) :: cs)
        else none
      | _ => none
    else none

/-- UTF-8 decoding into a Lean `String` (every code point a strict UTF-8
decoder can produce is a valid `Char`). -/
def utf8Decode (bs : Bytes) : Option String :=
  (utf8DecodeCps bs).map (fun cs => String.mk (cs.map Char.ofNat))

/-- `parse_body` from the source:
`try: return content.decode("utf-8") except: return content`. -/
def parse_body (content : Bytes) : Value :=
  match utf8Decode content with
  | some s => Value.vStr s
  | none => Value.vBytes content

/-- Lower-case hexadecimal digit character. -/
def hexDigitChar (n : Nat) : Char := Char.ofNat (if n < 10 then 48 + n else 87 + n)

/-- Two-digit lower-case hexadecimal rendering of a byte. -/
def hexByte (b : Nat) : String :=
  String.mk [hexDigitChar (b / 16 % 16), hexDigitChar (b % 16)]

/-- How CPython's `repr` of a bytes object escapes one byte, given the
numeric value of the chosen quote character. -/
def pyByteEscape (quote : Nat) (b : Nat) : String :=
  if b = 92 then "\\\\"
  else if b = quote then String.mk [Char.ofNat 92, Char.ofNat quote]
  else if b = 9 then "\\t"
  else if b = 10 then "\\n"
  else if b = 13 then "\\r"
  else if 32 ≤ b && b ≤ 126 then String.singleton (Char.ofNat b)
  else "\\x" ++ hexByte b

/-- CPython's `repr` of a bytes object (what an f-string interpolation of a
bytes value produces): quote character is a single quote unless the bytes
contain a single quote and no double quote, in which case it is a double
quote. -/
def pyReprBytes (bs : Bytes) : String :=
  let quote : Nat := if bs.contains 39 && !(bs.contains 34) then 34 else 39
  "b" ++ String.singleton (Char.ofNat quote)
    ++ String.join (bs.map (pyByteEscape quote))
    ++ String.singleton (Char.ofNat quote)

/-- Simplified rendering of a string for the dict-repr fallback below
(single quotes, no escaping).  Only reachable through `Value.pyStr` on a
dict value, a case the default loggers never take (dicts are caught by
their first branch). -/
def pyReprStr (s : String) : String :=
  String.singleton (Char.ofNat 39) ++ s ++ String.singleton (Char.ofNat 39)

/-- Rendering of a dict for the unreachable fallback case of `Value.pyStr`. -/
def pyReprDict (d : List (String × String)) : String :=
  "\x7b" ++ String.intercalate ", " (d.map (fun p => pyReprStr p.1 ++ ": " ++ pyReprStr p.2))
    ++ "\x7d"

/-- Python `str()` of a value, as an f-string interpolation `{v}` renders it. -/
def Value.pyStr : Value → String
  | Value.vStr s => s
  | Value.vInt n => toString n
  | Value.vNone => "None"
  | Value.vBytes bs => pyReprBytes bs
  | Value.vDict d => pyReprDict d

/-- Does the value match Python's `isinstance(v, dict)`? -/
def Value.isDict : Value → Bool
  | Value.vDict _ => true
  | _ => false

/-- Does the value match Python's `isinstance(v, bytes)`? -/
def Value.isBytes : Value → Bool
  | Value.vBytes _ => true
  | _ => false

/-- Severity level of an emitted logging line. -/
inductive LogLevel where
  | debug
  | info
  | error
deriving DecidableEq

/-- One line emitted through the `logging` module: its severity and its
formatted message. -/
structure LogRecord where
  level : LogLevel
  msg : String
deriving DecidableEq

/-- Message of the dict branch: the f-string `{k}: {kk} = {vv}`. -/
def dictMsg (k kk vv : String) : String := k ++ ": " ++ kk ++ " = " ++ vv

/-- Message of the bytes branch applied to the already-sliced value:
the f-string `{k}: "{v[:20]}"` (an interpolated bytes value renders as its
`repr`). -/
def bytesMsg (k : String) (shown : Bytes) : String :=
  k ++ ": \"" ++ pyReprBytes shown ++ "\""

/-- Message of the fallback branch: the f-string `{k}: {v}`. -/
def plainMsg (k : String) (v : Value) : String := k ++ ": " ++ v.pyStr

/-- `default_logger` from the source: iterates over the keyword arguments in
order; a dict value yields one `logging.info` line per inner pair, a bytes
value yields one `logging.debug` line showing `v[:20]`, anything else yields
one `logging.debug` line with the f-string `{k}: {v}`. -/
def default_logger : List (String × Value) → List LogRecord
  | [] => []
  | (k, v) :: rest =>
    (match v with
     | Value.vDict d =>
         d.map (fun p => { level := LogLevel.info, msg := dictMsg k p.1 p.2 })
     | Value.vBytes bs =>
         [{ level := LogLevel.debug, msg := bytesMsg k (bs.take 20) }]
     | v => [{ level := LogLevel.debug, msg := plainMsg k v }]) ++ default_logger rest

/-- `default_error_logger` from the source: same traversal and messages as
`default_logger`, with every line emitted via `logging.error`. -/
def default_error_logger : List (String × Value) → List LogRecord
  | [] => []
  | (k, v) :: rest =>
    (match v with
     | Value.vDict d =>
         d.map (fun p => { level := LogLevel.error, msg := dictMsg k p.1 p.2 })
     | Value.vBytes bs =>
         [{ level := LogLevel.error, msg := bytesMsg k (bs.take 20) }]
     | v => [{ level := LogLevel.error, msg := plainMsg k v }]) ++ default_error_logger rest

/-- Python's `logging.CRITICAL`, the highest standard severity tier. -/
def CRITICAL : Nat := 50

/-- The logging module's registry of explicitly set logger levels, as an
association list from logger name to level in first-registration order. -/
abbrev LoggerLevels := List (String × Nat)

/-- `logging.getLogger(name).setLevel(lvl)`: update the registry entry for
`name` in place, or register it at the end. -/
def setLevel : LoggerLevels → String → Nat → LoggerLevels
  | [], name, lvl => [(name, lvl)]
  | (k, w) :: rest, name, lvl =>
    if k = name then (k, lvl) :: rest else (k, w) :: setLevel rest name lvl

/-- The level explicitly set for `name`, if any. -/
def getLevel : LoggerLevels → String → Option Nat
  | [], _ => none
  | (k, w) :: rest, name => if k = name then some w else getLevel rest name

/-- `disable_loggers` from the source: sets the `uvicorn.error`,
`uvicorn.access`, `uvicorn` and `fastapi` loggers to `logging.CRITICAL`,
in that order. -/
def disable_loggers (st : LoggerLevels) : LoggerLevels :=
  setLevel
    (setLevel
      (setLevel
        (setLevel st "uvicorn.error" CRITICAL)
        "uvicorn.access" CRITICAL)
      "uvicorn" CRITICAL)
    "fastapi" CRITICAL

/-- One ASGI receive-channel message, as Starlette's request-body machinery
consumes it: an `http.request` message carrying a chunk of body bytes and
the `more_body` flag (absent in the source's `set_body`, hence `false`
there), or an `http.disconnect` message. -/
inductive Message where
  | httpRequest (body : Bytes) (more_body : Bool)
  | httpDisconnect
deriving DecidableEq

/-- The request object as the middleware sees it: captured metadata plus the
receive channel, modelled as the sequence of messages successive `receive()`
calls return (`receive i` is the result of the i-th call). -/
structure Request where
  method : String
  url : String
  headers : List (String × String)
  query_params : List (String × String)
  receive : Nat → Message

/-- Starlette's body-reading loop (`Request.stream`/`Request.body`), started
at call number `i` of the receive channel: concatenates `http.request`
chunks until one arrives with `more_body = false`.  `fuel` bounds the number
of messages consumed; `none` models a read that disconnects or never
completes. -/
def readBodyAux (recv : Nat → Message) : Nat → Nat → Option Bytes
  | _, 0 => none
  | i, Nat.succ fuel =>
    match recv i with
    | Message.httpRequest b true =>
        (readBodyAux recv (i + 1) fuel).map (fun rest => b ++ rest)
    | Message.httpRequest b false => some b
    | Message.httpDisconnect => none

/-- `await request.body()`: read the whole body from the receive channel. -/
def readBody (recv : Nat → Message) (fuel : Nat) : Option Bytes :=
  readBodyAux recv 0 fuel

/-- `set_body` from the source: replace the request's `_receive` with a
function that always returns `{"type": "http.request", "body": body}`
(no `more_body` key, which Starlette reads as `false`). -/
def set_body (request : Request) (body : Bytes) : Request :=
  { request with receive := fun _ => Message.httpRequest body false }

/-- A Python exception instance: its type name, its message (`str(exc)`),
and an object identity so that distinct instances with equal messages stay
distinguishable. -/
structure Exc where
  ty : String
  msg : String
  objId : Nat
deriving DecidableEq

/-- The response returned by `call_next`: a streaming body (list of chunks
that `async for chunk in response.body_iterator` yields, in order) plus
status code, headers and media type. -/
structure StreamResponse where
  body_iterator : List Bytes
  status_code : Int
  headers : List (String × String)
  media_type : Option String
deriving DecidableEq

/-- Outcome of `await call_next(request)`: either a response or a raised
exception. -/
inductive HandlerResult where
  | ok (resp : StreamResponse)
  | err (exc : Exc)
deriving DecidableEq

/-- Which of the two logger callbacks an invocation targets:
`custom_logger` (success) or `custom_error_logger` (error). -/
inductive LoggerTag where
  | success
  | error
deriving DecidableEq

/-- The keyword arguments of one logger invocation, in keyword order. -/
abbrev LogEvent := List (String × Value)

/-- The `Response(...)` object the middleware returns on the success path,
with its `background` task recorded as the deferred logger invocation it
carries (the host framework runs it only after the response has been sent). -/
structure FinalResponse where
  content : Bytes
  status_code : Int
  headers : List (String × String)
  media_type : Option String
  background : Option (LoggerTag × LogEvent)
deriving DecidableEq

/-- How one middleware call ends: returning a response, or re-raising an
exception. -/
inductive MwOutcome where
  | response (resp : FinalResponse)
  | raised (exc : Exc)
deriving DecidableEq

/-- Result of one middleware call: its outcome plus the logger invocations
it performed synchronously, before returning (in order). -/
structure MwResult where
  outcome : MwOutcome
  syncCalls : List (LoggerTag × LogEvent)
deriving DecidableEq

/-- `dict(...)` over a Starlette `Headers` multi-dict: iterate the keys in
order and look each up, so the first occurrence of a duplicated name wins
and later duplicates are silently dropped. -/
def pyDictAux (seen : List String) : List (String × String) → List (String × String)
  | [] => []
  | (k, v) :: rest =>
    if k ∈ seen then pyDictAux seen rest
    else (k, v) :: pyDictAux (k :: seen) rest

/-- First-occurrence-wins collapse of an association list, modelling
`dict(request.headers)` and `dict(response.headers)`. -/
def pyDict (l : List (String × String)) : List (String × String) :=
  pyDictAux [] l

/-- The value of the last binding of `key` in the list, if any. -/
def lookupLast (key : String) : List (String × String) → Option String
  | [] => none
  | (k, v) :: rest =>
    match lookupLast key rest with
    | some w => some w
    | none => if k = key then some v else none

/-- `dict(request.query_params)` over a Starlette `QueryParams` multi-dict:
unique keys in first-occurrence order, each mapped to its last value. -/
def pyDictLast (l : List (String × String)) : List (String × String) :=
  (pyDict l).map (fun p => (p.1, (lookupLast p.1 l).getD p.2))

/-- `media_type` as a logger-event value: a string, or `None`. -/
def mediaValue : Option String → Value
  | some s => Value.vStr s
  | none => Value.vNone

/-- The request-side fields both logger invocations receive, in the keyword
order of the source. -/
def requestFields (request : Request) (request_body : Bytes) : LogEvent :=
  [("request_body", parse_body request_body),
   ("request_headers", Value.vDict (pyDict request.headers)),
   ("request_query_params", Value.vDict (pyDictLast request.query_params)),
   ("request_method", Value.vStr request.method),
   ("request_url", Value.vStr request.url)]

/-- The keyword arguments of the `custom_error_logger(...)` call on the
except path: request fields plus `error_message = str(exc)`. -/
def errorEvent (request : Request) (request_body : Bytes) (exc : Exc) : LogEvent :=
  requestFields request request_body ++ [("error_message", Value.vStr exc.msg)]

/-- The keyword arguments of the deferred `custom_logger` background task on
the success path: request fields plus the response snapshot fields. -/
def successEvent (request : Request) (request_body : Bytes)
    (response : StreamResponse) (response_body : Bytes) : LogEvent :=
  requestFields request request_body ++
    [("response_body", parse_body response_body),
     ("response_headers", Value.vDict (pyDict response.headers)),
     ("response_media_type", mediaValue response.media_type),
     ("response_status_code", Value.vInt response.status_code)]

/-- The drain loop `response_body = b""; async for chunk in
response.body_iterator: response_body += chunk`. -/
def drainBody (chunks : List Bytes) : Bytes :=
  chunks.foldl (fun acc c => acc ++ c) []

/-- `middleware_logger` from the source.  It reads the full request body,
patches the request via `set_body`, and invokes `call_next` on the patched
request.  If the handler raises, it synchronously invokes
`custom_error_logger` with the error event and re-raises the same exception;
if the handler returns, it drains the body stream, builds a `Response` with
the drained bytes, the handler's status code, `dict`-collapsed headers and
media type, and attaches the `custom_logger` invocation as the response's
background task.  Logger invocations are recorded as `(tag, event)` pairs
rather than applied, so the result is independent of the callbacks' own
behaviour.  `none` models a request whose body read never completes. -/
def middleware_logger (request : Request) (call_next : Request → HandlerResult)
    (fuel : Nat) : Option MwResult :=
  match readBody request.receive fuel with
  | none => none
  | some request_body =>
    match call_next (set_body request request_body) with
    | HandlerResult.err exc =>
        some { outcome := MwOutcome.raised exc,
               syncCalls := [(LoggerTag.error, errorEvent request request_body exc)] }
    | HandlerResult.ok response =>
        let response_body := drainBody response.body_iterator
        some { outcome := MwOutcome.response
                 { content := response_body,
                   status_code := response.status_code,
                   headers := pyDict response.headers,
                   media_type := response.media_type,
                   background := some (LoggerTag.success,
                     successEvent request request_body response response_body) },
               syncCalls := [] }

/-- All logger invocations one middleware call produces, synchronous ones
first, then the deferred background task of the returned response (which the
host runs after the response is sent). -/
def scheduledEvents (res : MwResult) : List (LoggerTag × LogEvent) :=
  res.syncCalls ++
    (match res.outcome with
     | MwOutcome.response fr => fr.background.toList
     | MwOutcome.raised _ => [])

theorem getLevel_setLevel_self (st : LoggerLevels) (a : String) (x : Nat) :
    getLevel (setLevel st a x) a = some x := by
  induction st with
  | nil => simp [setLevel, getLevel]
  | cons kv rest ih =>
    obtain ⟨k, w⟩ := kv
    by_cases h : k = a
    · simp [setLevel, getLevel, h]
    · simp [setLevel, getLevel, h, ih]

theorem getLevel_setLevel_other (st : LoggerLevels) (a b : String) (h : a ≠ b)
    (x : Nat) : getLevel (setLevel st a x) b = getLevel st b := by
  induction st with
  | nil => simp [setLevel, getLevel, h]
  | cons kv rest ih =>
    obtain ⟨k, w⟩ := kv
    by_cases hk : k = a
    · subst hk
      simp [setLevel, getLevel, h]
    · simp only [setLevel, getLevel, hk, if_false, if_neg hk]
      by_cases hb : k = b
      · simp [getLevel, hb]
      · simp [getLevel, hb, ih]

theorem setLevel_of_getLevel (st : LoggerLevels) (a : String) (x : Nat)
    (h : getLevel st a = some x) : setLevel st a x = st := by
  induction st with
  | nil => simp [getLevel] at h
  | cons kv rest ih =>
    obtain ⟨k, w⟩ := kv
    by_cases hk : k = a
    · subst hk
      simp [getLevel] at h
      simp [setLevel, h]
    · simp [getLevel, hk] at h
      simp [setLevel, hk, ih h]

theorem getLevel_disable_loggers (st : LoggerLevels) :
    getLevel (disable_loggers st) "fastapi" = some CRITICAL ∧
    getLevel (disable_loggers st) "uvicorn" = some CRITICAL ∧
    getLevel (disable_loggers st) "uvicorn.access" = some CRITICAL ∧
    getLevel (disable_loggers st) "uvicorn.error" = some CRITICAL := by
  unfold disable_loggers
  refine ⟨getLevel_setLevel_self _ _ _, ?_, ?_, ?_⟩
  · rw [getLevel_setLevel_other _ "fastapi" "uvicorn" (by decide)]
    exact getLevel_setLevel_self _ _ _
  · rw [getLevel_setLevel_other _ "fastapi" "uvicorn.access" (by decide),
        getLevel_setLevel_other _ "uvicorn" "uvicorn.access" (by decide)]
    exact getLevel_setLevel_self _ _ _
  · rw [getLevel_setLevel_other _ "fastapi" "uvicorn.error" (by decide),
        getLevel_setLevel_other _ "uvicorn" "uvicorn.error" (by decide),
        getLevel_setLevel_other _ "uvicorn.access" "uvicorn.error" (by decide)]
    exact getLevel_setLevel_self _ _ _

theorem disable_loggers_fixed (A : LoggerLevels)
    (h1 : getLevel A "uvicorn.error" = some CRITICAL)
    (h2 : getLevel A "uvicorn.access" = some CRITICAL)
    (h3 : getLevel A "uvicorn" = some CRITICAL)
    (h4 : getLevel A "fastapi" = some CRITICAL) :
    disable_loggers A = A := by
  unfold disable_loggers
  rw [setLevel_of_getLevel _ _ _ h1, setLevel_of_getLevel _ _ _ h2,
      setLevel_of_getLevel _ _ _ h3, setLevel_of_getLevel _ _ _ h4]

theorem disable_loggers_idem (st : LoggerLevels) :
    disable_loggers (disable_loggers st) = disable_loggers st :=
  disable_loggers_fixed _ (getLevel_disable_loggers st).2.2.2
    (getLevel_disable_loggers st).2.2.1 (getLevel_disable_loggers st).2.1
    (getLevel_disable_loggers st).1

/-- C6: for every byte sequence `b`, `parse_body b` is the UTF-8 decoding of
`b` as text whenever `b` decodes (is valid UTF-8), and is `b` itself,
unchanged and still as bytes, whenever decoding fails.  `parse_body` is a
total Lean function, which models that the Python `except:` clause catches
the only possible failure and the function never raises. -/
theorem parse_body_spec (b : Bytes) :
    (∀ s, utf8Decode b = some s → parse_body b = Value.vStr s) ∧
    (utf8Decode b = none → parse_body b = Value.vBytes b) := by
  constructor
  · intro s h
    simp [parse_body, h]
  · intro h
    simp [parse_body, h]

theorem parse_body_spec_witness :
    parse_body [104, 105] = Value.vStr "hi" ∧
    parse_body [255] = Value.vBytes [255] :=
  ⟨(parse_body_spec [104, 105]).1 "hi" (by decide),
   (parse_body_spec [255]).2 (by decide)⟩

/-- C7: `default_logger` treats each field independently (it distributes over
concatenation of the field list); a dict-valued field yields one
informational line per inner pair with message `{k}: {kk} = {vv}`; a
bytes-valued field yields exactly one debug line showing `bs.take 20`, which
is all of `bs` when `bs` has at most 20 bytes and exactly 20 bytes when `bs`
is longer; every other field yields exactly one debug line with the field
name and value. -/
theorem default_logger_lines :
    (∀ xs ys : List (String × Value),
        default_logger (xs ++ ys) = default_logger xs ++ default_logger ys) ∧
    (∀ (k : String) (d : List (String × String)),
        default_logger [(k, Value.vDict d)] =
          d.map (fun p => { level := LogLevel.info, msg := dictMsg k p.1 p.2 })) ∧
    (∀ (k : String) (bs : Bytes),
        default_logger [(k, Value.vBytes bs)] =
          [{ level := LogLevel.debug, msg := bytesMsg k (bs.take 20) }] ∧
        (bs.length ≤ 20 → bs.take 20 = bs) ∧
        (20 < bs.length → (bs.take 20).length = 20)) ∧
    (∀ (k : String) (v : Value), v.isDict = false → v.isBytes = false →
        default_logger [(k, v)] =
          [{ level := LogLevel.debug, msg := plainMsg k v }]) := by
  refine ⟨?_, ?_, ?_, ?_⟩
  · intro xs ys
    induction xs with
    | nil => rfl
    | cons kv rest ih =>
      obtain ⟨k, v⟩ := kv
      cases v <;> simp [default_logger, ih]
  · intro k d
    simp [default_logger]
  · intro k bs
    refine ⟨by simp [default_logger], fun h => List.take_of_length_le h, fun h => ?_⟩
    rw [List.length_take]
    exact Nat.min_eq_left (Nat.le_of_lt h)
  · intro k v hd hb
    cases v <;> simp_all [Value.isDict, Value.isBytes, default_logger]

theorem default_logger_lines_witness :
    ([3, 4, 5] : Bytes).take 20 = [3, 4, 5] ∧
    ((List.range 25 : Bytes).take 20).length = 20 ∧
    default_logger [("request_method", Value.vStr "GET")] =
      [{ level := LogLevel.debug,
         msg := plainMsg "request_method" (Value.vStr "GET") }] :=
  ⟨(default_logger_lines.2.2.1 "b" [3, 4, 5]).2.1 (by decide),
   (default_logger_lines.2.2.1 "b" (List.range 25)).2.2 (by decide),
   default_logger_lines.2.2.2 "request_method" (Value.vStr "GET")
     (by decide) (by decide)⟩

/-- C8: for every field mapping, `default_error_logger` performs the
identical traversal and produces the identically formatted messages as
`default_logger`, except that every line carries error severity instead of
informational or debug severity. -/
theorem default_error_logger_eq (kwargs : List (String × Value)) :
    default_error_logger kwargs =
      (default_logger kwargs).map
        (fun r => { level := LogLevel.error, msg := r.msg }) := by
  induction kwargs with
  | nil => rfl
  | cons kv rest ih =>
    obtain ⟨k, v⟩ := kv
    cases v <;>
      simp [default_logger, default_error_logger, ih, List.map_map, Function.comp]

/-- C9: `disable_loggers` sets the `fastapi` (framework-level),
`uvicorn.access` (server-access-level) and `uvicorn.error`
(server-error-level) channels to `CRITICAL`, the highest severity tier, and
it is idempotent: calling it N ≥ 1 times leaves the registry in exactly the
state one call produces. -/
theorem disable_loggers_spec (st : LoggerLevels) (n : Nat) (h : 1 ≤ n) :
    disable_loggers^[n] st = disable_loggers st ∧
    getLevel (disable_loggers^[n] st) "fastapi" = some CRITICAL ∧
    getLevel (disable_loggers^[n] st) "uvicorn.access" = some CRITICAL ∧
    getLevel (disable_loggers^[n] st) "uvicorn.error" = some CRITICAL := by
  have hiter : ∀ m, disable_loggers^[m + 1] st = disable_loggers st := by
    intro m
    induction m with
    | zero => simp
    | succ m ih =>
      rw [Function.iterate_succ_apply', ih, disable_loggers_idem]
  obtain ⟨m, rfl⟩ : ∃ m, n = m + 1 := ⟨n - 1, (Nat.succ_pred_eq_of_pos h).symm⟩
  have hd := getLevel_disable_loggers st
  exact ⟨hiter m, by rw [hiter m]; exact hd.1, by rw [hiter m]; exact hd.2.2.1,
         by rw [hiter m]; exact hd.2.2.2⟩

theorem disable_loggers_spec_witness :
    disable_loggers^[3] [] = disable_loggers [] ∧
    getLevel (disable_loggers^[3] []) "fastapi" = some CRITICAL ∧
    getLevel (disable_loggers^[3] []) "uvicorn.access" = some CRITICAL ∧
    getLevel (disable_loggers^[3] []) "uvicorn.error" = some CRITICAL :=
  disable_loggers_spec [] 3 (by decide)

theorem foldl_append_eq_flatten (l : List Bytes) (acc : Bytes) :
    l.foldl (fun a c => a ++ c) acc = acc ++ l.flatten := by
  induction l generalizing acc with
  | nil => simp
  | cons c rest ih => simp [ih, List.append_assoc]

theorem drainBody_eq_flatten (chunks : List Bytes) :
    drainBody chunks = chunks.flatten := by
  simp [drainBody, foldl_append_eq_flatten]

theorem pyDictAux_eq_self (l : List (String × String)) :
    ∀ seen, (l.map Prod.fst).Nodup → (∀ k ∈ l.map Prod.fst, k ∉ seen) →
      pyDictAux seen l = l := by
  induction l with
  | nil => intro seen _ _; rfl
  | cons kv rest ih =>
    intro seen hnd hdisj
    obtain ⟨k, v⟩ := kv
    have hnd2 : (k :: rest.map Prod.fst).Nodup := by simpa using hnd
    have hk : k ∉ seen := hdisj k (by simp)
    show (if k ∈ seen then pyDictAux seen rest
          else (k, v) :: pyDictAux (k :: seen) rest) = (k, v) :: rest
    rw [if_neg hk]
    congr 1
    apply ih
    · exact (List.nodup_cons.mp hnd2).2
    · intro a ha hmem
      rcases List.mem_cons.mp hmem with h1 | h2
      · exact (List.nodup_cons.mp hnd2).1 (h1 ▸ ha)
      · exact hdisj a (by simp [ha]) h2

theorem pyDict_eq_self (l : List (String × String))
    (h : (l.map Prod.fst).Nodup) : pyDict l = l :=
  pyDictAux_eq_self l [] h (by simp)

/-- C1 as stated is false: with a duplicated response header name
(two `set-cookie` headers), the response the middleware returns carries only
the first occurrence, because the source passes `dict(response.headers)` to
the reconstructed `Response`; so its headers differ from the handler's
original response headers. -/
theorem middleware_headers_counterexample :
    (middleware_logger
        { method := "GET", url := "http://testserver/", headers := [],
          query_params := [],
          receive := fun _ => Message.httpRequest [] false }
        (fun _ => HandlerResult.ok
          { body_iterator := [], status_code := 200,
            headers := [("set-cookie", "a=1"), ("set-cookie", "b=2")],
            media_type := none })
        1).map
      (fun r =>
        match r.outcome with
        | MwOutcome.response fr => fr.headers
        | MwOutcome.raised _ => []) = some [("set-cookie", "a=1")] ∧
    [("set-cookie", "a=1")] ≠ [("set-cookie", "a=1"), ("set-cookie", "b=2")] :=
  ⟨rfl, by decide⟩

/-- C1 amended: on the success path the middleware returns a response with
the same status code, the same media type, and the same body bytes (the
concatenation of the original response's stream chunks) as the handler's
original response; its headers are the first-occurrence-wins
duplicate-collapse `pyDict` of the original headers, hence identical to the
original headers whenever no header name is duplicated. -/
theorem middleware_preserves_response (request : Request)
    (call_next : Request → HandlerResult) (fuel : Nat) (rb : Bytes)
    (resp : StreamResponse)
    (h1 : readBody request.receive fuel = some rb)
    (h2 : call_next (set_body request rb) = HandlerResult.ok resp) :
    (middleware_logger request call_next fuel).map (fun r => r.outcome) =
      some (MwOutcome.response
        { content := resp.body_iterator.flatten,
          status_code := resp.status_code,
          headers := pyDict resp.headers,
          media_type := resp.media_type,
          background := some (LoggerTag.success,
            successEvent request rb resp (drainBody resp.body_iterator)) }) ∧
    ((resp.headers.map Prod.fst).Nodup → pyDict resp.headers = resp.headers) := by
  constructor
  · simp [middleware_logger, h1, h2, drainBody_eq_flatten]
  · exact pyDict_eq_self resp.headers

theorem middleware_preserves_response_witness :
    (middleware_logger
        { method := "GET", url := "http://testserver/item",
          headers := [("host", "testserver")], query_params := [("a", "1")],
          receive := fun _ => Message.httpRequest [104] false }
        (fun _ => HandlerResult.ok
          { body_iterator := [[111], [107]], status_code := 200,
            headers := [("x-test", "v")], media_type := some "application/json" })
        1).map (fun r => r.outcome) =
      some (MwOutcome.response
        { content := [111, 107], status_code := 200,
          headers := [("x-test", "v")], media_type := some "application/json",
          background := some (LoggerTag.success,
            successEvent
              { method := "GET", url := "http://testserver/item",
                headers := [("host", "testserver")], query_params := [("a", "1")],
                receive := fun _ => Message.httpRequest [104] false }
              [104]
              { body_iterator := [[111], [107]], status_code := 200,
                headers := [("x-test", "v")], media_type := some "application/json" }
              [111, 107]) }) ∧
    pyDict [("x-test", "v")] = [("x-test", "v")] := by
  have h := middleware_preserves_response
      { method := "GET", url := "http://testserver/item",
        headers := [("host", "testserver")], query_params := [("a", "1")],
        receive := fun _ => Message.httpRequest [104] false }
      (fun _ => HandlerResult.ok
        { body_iterator := [[111], [107]], status_code := 200,
          headers := [("x-test", "v")], media_type := some "application/json" })
      1 [104]
      { body_iterator := [[111], [107]], status_code := 200,
        headers := [("x-test", "v")], media_type := some "application/json" }
      rfl rfl
  exact ⟨h.1, h.2 (by decide)⟩

/-- C2: every middleware call that completes produces exactly one logger
invocation: if the handler returns a response, the full invocation list is
exactly one deferred success-logger call; if the handler raises, it is
exactly one synchronous error-logger call; never both, never zero. -/
theorem middleware_one_event (request : Request)
    (call_next : Request → HandlerResult) (fuel : Nat) (rb : Bytes)
    (h1 : readBody request.receive fuel = some rb) :
    (∀ resp, call_next (set_body request rb) = HandlerResult.ok resp →
        (middleware_logger request call_next fuel).map scheduledEvents =
          some [(LoggerTag.success,
            successEvent request rb resp (drainBody resp.body_iterator))]) ∧
    (∀ exc, call_next (set_body request rb) = HandlerResult.err exc →
        (middleware_logger request call_next fuel).map scheduledEvents =
          some [(LoggerTag.error, errorEvent request rb exc)]) := by
  constructor
  · intro resp h2
    simp [middleware_logger, h1, h2, scheduledEvents]
  · intro exc h2
    simp [middleware_logger, h1, h2, scheduledEvents]

theorem middleware_one_event_witness :
    (middleware_logger
        { method := "GET", url := "http://t/", headers := [], query_params := [],
          receive := fun _ => Message.httpRequest [] false }
        (fun _ => HandlerResult.ok
          { body_iterator := [[1]], status_code := 200, headers := [],
            media_type := none })
        1).map scheduledEvents =
      some [(LoggerTag.success,
        successEvent
          { method := "GET", url := "http://t/", headers := [], query_params := [],
            receive := fun _ => Message.httpRequest [] false }
          []
          { body_iterator := [[1]], status_code := 200, headers := [],
            media_type := none }
          (drainBody [[1]]))] ∧
    (middleware_logger
        { method := "GET", url := "http://t/", headers := [], query_params := [],
          receive := fun _ => Message.httpRequest [] false }
        (fun _ => HandlerResult.err { ty := "ValueError", msg := "bad input", objId := 7 })
        1).map scheduledEvents =
      some [(LoggerTag.error,
        errorEvent
          { method := "GET", url := "http://t/", headers := [], query_params := [],
            receive := fun _ => Message.httpRequest [] false }
          []
          { ty := "ValueError", msg := "bad input", objId := 7 })] :=
  ⟨(middleware_one_event
      { method := "GET", url := "http://t/", headers := [], query_params := [],
        receive := fun _ => Message.httpRequest [] false }
      (fun _ => HandlerResult.ok
        { body_iterator := [[1]], status_code := 200, headers := [],
          media_type := none })
      1 [] rfl).1
      { body_iterator := [[1]], status_code := 200, headers := [],
        media_type := none } rfl,
   (middleware_one_event
      { method := "GET", url := "http://t/", headers := [], query_params := [],
        receive := fun _ => Message.httpRequest [] false }
      (fun _ => HandlerResult.err { ty := "ValueError", msg := "bad input", objId := 7 })
      1 [] rfl).2
      { ty := "ValueError", msg := "bad input", objId := 7 } rfl⟩

/-- C3: when the handler raises, the middleware synchronously invokes the
error logger, exactly once, with the captured request fields plus
`error_message = str(exc)`, and its outcome is re-raising the very same
exception value (same instance identity and type); no substitute response is
produced. -/
theorem middleware_error_path (request : Request)
    (call_next : Request → HandlerResult) (fuel : Nat) (rb : Bytes) (exc : Exc)
    (h1 : readBody request.receive fuel = some rb)
    (h2 : call_next (set_body request rb) = HandlerResult.err exc) :
    middleware_logger request call_next fuel =
      some { outcome := MwOutcome.raised exc,
             syncCalls := [(LoggerTag.error,
               requestFields request rb ++
                 [("error_message", Value.vStr exc.msg)])] } := by
  simp [middleware_logger, h1, h2, errorEvent]

theorem middleware_error_path_witness :
    middleware_logger
        { method := "POST", url := "http://t/fail", headers := [("host", "t")],
          query_params := [],
          receive := fun _ => Message.httpRequest [104, 105] false }
        (fun _ => HandlerResult.err { ty := "ValueError", msg := "bad input", objId := 3 })
        1 =
      some { outcome := MwOutcome.raised
               { ty := "ValueError", msg := "bad input", objId := 3 },
             syncCalls := [(LoggerTag.error,
               requestFields
                 { method := "POST", url := "http://t/fail", headers := [("host", "t")],
                   query_params := [],
                   receive := fun _ => Message.httpRequest [104, 105] false }
                 [104, 105] ++
                 [("error_message", Value.vStr "bad input")])] } :=
  middleware_error_path
    { method := "POST", url := "http://t/fail", headers := [("host", "t")],
      query_params := [],
      receive := fun _ => Message.httpRequest [104, 105] false }
    (fun _ => HandlerResult.err { ty := "ValueError", msg := "bad input", objId := 3 })
    1 [104, 105] { ty := "ValueError", msg := "bad input", objId := 3 } rfl rfl

/-- C4: when the handler returns a response, the middleware performs no
synchronous logger invocation at all; the success-logger invocation is
attached to the returned response as its background task, which the host
framework runs only after the response has been handed off. -/
theorem middleware_success_deferred (request : Request)
    (call_next : Request → HandlerResult) (fuel : Nat) (rb : Bytes)
    (resp : StreamResponse)
    (h1 : readBody request.receive fuel = some rb)
    (h2 : call_next (set_body request rb) = HandlerResult.ok resp) :
    (middleware_logger request call_next fuel).map (fun r => r.syncCalls) =
      some [] ∧
    (middleware_logger request call_next fuel).map
        (fun r =>
          match r.outcome with
          | MwOutcome.response fr => fr.background
          | MwOutcome.raised _ => none) =
      some (some (LoggerTag.success,
        successEvent request rb resp (drainBody resp.body_iterator))) := by
  constructor <;> simp [middleware_logger, h1, h2]

theorem middleware_success_deferred_witness :
    (middleware_logger
        { method := "GET", url := "http://t/ok", headers := [], query_params := [],
          receive := fun _ => Message.httpRequest [] false }
        (fun _ => HandlerResult.ok
          { body_iterator := [[111, 107]], status_code := 200, headers := [],
            media_type := some "text/plain" })
        1).map (fun r => r.syncCalls) = some [] ∧
    (middleware_logger
        { method := "GET", url := "http://t/ok", headers := [], query_params := [],
          receive := fun _ => Message.httpRequest [] false }
        (fun _ => HandlerResult.ok
          { body_iterator := [[111, 107]], status_code := 200, headers := [],
            media_type := some "text/plain" })
        1).map
        (fun r =>
          match r.outcome with
          | MwOutcome.response fr => fr.background
          | MwOutcome.raised _ => none) =
      some (some (LoggerTag.success,
        successEvent
          { method := "GET", url := "http://t/ok", headers := [], query_params := [],
            receive := fun _ => Message.httpRequest [] false }
          []
          { body_iterator := [[111, 107]], status_code := 200, headers := [],
            media_type := some "text/plain" }
          (drainBody [[111, 107]]))) :=
  middleware_success_deferred
    { method := "GET", url := "http://t/ok", headers := [], query_params := [],
      receive := fun _ => Message.httpRequest [] false }
    (fun _ => HandlerResult.ok
      { body_iterator := [[111, 107]], status_code := 200, headers := [],
        media_type := some "text/plain" })
    1 []
    { body_iterator := [[111, 107]], status_code := 200, headers := [],
      media_type := some "text/plain" }
    rfl rfl

/-- C5: once the middleware has read the full request body `b` and installed
the replacement body source via `set_body`, every read from the patched
receive channel - at any call position, with any positive fuel - returns
exactly `b`, the bytes the middleware's own read of the original channel
produced; so a downstream consumer sees the original body and the read is
idempotent. -/
theorem set_body_rereadable (request : Request) (fuel : Nat) (b : Bytes)
    (h : readBody request.receive fuel = some b) :
    ∀ i fuel2, 0 < fuel2 →
      readBodyAux (set_body request b).receive i fuel2 = some b := by
  intro i fuel2 hf
  cases fuel2 with
  | zero => exact absurd hf (Nat.lt_irrefl 0)
  | succ m => rfl

theorem set_body_rereadable_witness :
    readBodyAux
      (set_body
        { method := "PUT", url := "http://t/u", headers := [], query_params := [],
          receive := fun i =>
            if i = 0 then Message.httpRequest [1, 2] true
            else Message.httpRequest [3] false }
        [1, 2, 3]).receive
      4 1 = some [1, 2, 3] :=
  set_body_rereadable
    { method := "PUT", url := "http://t/u", headers := [], query_params := [],
      receive := fun i =>
        if i = 0 then Message.httpRequest [1, 2] true
        else Message.httpRequest [3] false }
    2 [1, 2, 3] rfl 4 1 (by decide)

/-- C10: the 20-byte truncation applies only to values that are still raw
bytes: a body that decodes as UTF-8 is passed to the logger as a string, and
the default logger emits it as one debug line containing the whole decoded
string, whatever its length, with no truncation. -/
theorem decoded_body_full (k : String) (bs : Bytes) (s : String)
    (h : utf8Decode bs = some s) :
    parse_body bs = Value.vStr s ∧
    default_logger [(k, parse_body bs)] =
      [{ level := LogLevel.debug, msg := k ++ ": " ++ s }] := by
  have hp : parse_body bs = Value.vStr s := by simp [parse_body, h]
  refine ⟨hp, ?_⟩
  rw [hp]
  simp [default_logger, plainMsg, Value.pyStr]

theorem decoded_body_full_witness :
    parse_body (List.replicate 25 97) = Value.vStr "aaaaaaaaaaaaaaaaaaaaaaaaa" ∧
    default_logger [("request_body", parse_body (List.replicate 25 97))] =
      [{ level := LogLevel.debug,
         msg := "request_body" ++ ": " ++ "aaaaaaaaaaaaaaaaaaaaaaaaa" }] :=
  decoded_body_full "request_body" (List.replicate 25 97)
    "aaaaaaaaaaaaaaaaaaaaaaaaa" (by decide)
